import Mathlib

/-!
# Verification of the builder lifecycle orchestrator (`internal/build/imgsrc/ensure_builder.go`)

A shallow embedding of `EnsureBuilder`, `validateBuilder`,
`validateBuilderVolumes`, `validateBuilderMachines` and `createBuilder`.

The remote fleet API (flaps client + fly client) is modelled as an
environment `Env` of scripted responses, one stream per remote operation,
consumed in call order.  Every remote call (and every `time.Sleep`)
appends an `Event` to a trace, so frame/ordering properties ("volumes are
checked before machines", "the rollback deletes the volume and then the
app", "zero creation calls") are statements about the trace.  Go errors
are modelled by the inductive `Err`; `errors.As` unwrapping is the
recursive `asFlapsStatus` / `asValidateBuilderError`.
-/

namespace EnsureBuilderSpec

/-- Model of `fly.Volume` (the fields this subsystem reads). -/
structure Volume where
  id : String
  deriving DecidableEq, Repr

/-- Model of `fly.Machine` (the fields this subsystem reads). -/
structure Machine where
  id : String
  deriving DecidableEq, Repr

/-- Model of `fly.App` (the fields this subsystem reads). -/
structure App where
  id : String
  name : String
  deriving DecidableEq, Repr

/-- Model of `fly.Organization` (the fields this subsystem reads):
`ID`, `Slug`, `RemoteBuilderApp`, `RemoteBuilderImage`. -/
structure Organization where
  id : String
  slug : String
  remoteBuilderApp : Option App
  remoteBuilderImage : String
  deriving DecidableEq, Repr

/-- Model of `ValidateBuilderError` from `ensure_builder.go`:
`NoBuilderApp | NoBuilderVolume | InvalidMachineCount`. -/
inductive ValidateBuilderError where
  | NoBuilderApp
  | NoBuilderVolume
  | InvalidMachineCount
  deriving DecidableEq, Repr

/-- Model of `(ValidateBuilderError).Error()`. -/
def ValidateBuilderError.errorString : ValidateBuilderError → String
  | .NoBuilderApp => "no builder app"
  | .NoBuilderVolume => "no builder volume"
  | .InvalidMachineCount => "invalid machine count"

/-- Go `error` values observable by this subsystem.
`flaps c` is a `*flaps.FlapsError` with `ResponseStatusCode = c`;
`validate v` is a `ValidateBuilderError`; `wrapped msg e` is
`fmt.Errorf("...: %w", e)`; `other` is any other opaque error value
(network error, context cancellation error, ...). -/
inductive Err where
  | flaps (responseStatusCode : Nat)
  | validate (v : ValidateBuilderError)
  | wrapped (msg : String) (inner : Err)
  | other (msg : String)
  deriving DecidableEq, Repr

/-- Model of `errors.As(err, &flapsErr)`: find a `*flaps.FlapsError` in the wrap
chain and return its `ResponseStatusCode`. -/
def asFlapsStatus : Err → Option Nat
  | .flaps c => some c
  | .wrapped _ e => asFlapsStatus e
  | _ => none

/-- Model of `errors.As(err, &validateBuilderErr)`. -/
def asValidateBuilderError : Err → Option ValidateBuilderError
  | .validate v => some v
  | .wrapped _ e => asValidateBuilderError e
  | _ => none

/-- The retry condition used by every retry loop in `ensure_builder.go`:
`errors.As(err, &flapsErr) && flapsErr.ResponseStatusCode >= 500 &&
flapsErr.ResponseStatusCode < 600`. -/
def isServerError (e : Err) : Bool :=
  match asFlapsStatus e with
  | some c => 500 ≤ c && c < 600
  | none => false

/-- Model of `fly.MachineGuest` (the fields set by `createBuilder`). -/
structure MachineGuest where
  cpuKind : String
  cpus : Nat
  memoryMB : Nat
  deriving DecidableEq, Repr

/-- Model of `fly.CreateAppInput` (the fields set by `createBuilder`). -/
structure CreateAppInput where
  organizationID : String
  name : String
  appRoleID : String
  machines : Bool
  preferredRegion : String
  deriving DecidableEq, Repr

/-- Model of `fly.CreateVolumeRequest` (the fields set by `createBuilder`). -/
structure CreateVolumeRequest where
  name : String
  sizeGb : Nat
  autoBackupEnabled : Bool
  computeRequirements : MachineGuest
  region : String
  deriving DecidableEq, Repr

/-- Model of `fly.MachineMount` (the fields set by `createBuilder`). -/
structure MachineMount where
  path : String
  volume : String
  name : String
  deriving DecidableEq, Repr

/-- Model of `fly.MachinePort` (the fields set by `createBuilder`; `tlsALPN` is
`TLSOptions.ALPN`, `h2Backend` is `HTTPOptions.H2Backend`). -/
structure MachinePort where
  port : Nat
  handlers : List String
  forceHTTPS : Bool
  tlsALPN : List String
  h2Backend : Bool
  deriving DecidableEq, Repr

/-- Model of `fly.MachineService` (the fields set by `createBuilder`). -/
structure MachineService where
  protocol : String
  internalPort : Nat
  autostop : Bool
  autostart : Bool
  minMachinesRunning : Nat
  ports : List MachinePort
  deriving DecidableEq, Repr

/-- Model of `fly.MachineConfig` (the fields set by `createBuilder`). -/
structure MachineConfig where
  env : List (String × String)
  guest : MachineGuest
  mounts : List MachineMount
  services : List MachineService
  image : String
  deriving DecidableEq, Repr

/-- Model of `fly.LaunchMachineInput` (the fields set by `createBuilder`). -/
structure LaunchMachineInput where
  region : String
  config : MachineConfig
  deriving DecidableEq, Repr

/-- One observable action of a run: a remote call (with the request data
the code put into it) or a `time.Sleep(1 * time.Second)`. -/
inductive Event where
  | getVolumes
  | listMachines
  | createApp (input : CreateAppInput)
  | deleteApp (name : String)
  | allocateIP (appName : String) (addrType : String)
  | waitForApp (name : String)
  | createVolume (req : CreateVolumeRequest)
  | deleteVolume (volumeId : String)
  | launch (input : LaunchMachineInput)
  | sleep1s
  deriving DecidableEq, Repr

/-- The external world: scripted responses for each remote operation,
consumed in call order, plus two inputs the code reads from outside the
remote API.

`haikunatorName` — Modelled from the spec: `haikunator.Haikunator().Build()`
(package `internal/haikunator`, not part of the sources here) generates a
random human-readable word pair; per the spec the resulting worker name is
freshly generated, unique, and never reuses the broken app's name.  We
model the generator's output for a run as this field; its spec-guaranteed
freshness appears as a hypothesis where a claim needs it.

`ctxCanceled` — the caller's cancellation signal (`ctx`).  The retry
loops in the source never read it (there is no `ctx.Err()` / `ctx.Done()`
check in any loop), and the embedding is faithful to that: no operation
below inspects this field.  A canceled context can only surface as a
scripted error response of a remote call. -/
structure Env where
  haikunatorName : String
  ctxCanceled : Bool
  getVolumesResps : List (Except Err (List Volume))
  listResps : List (Except Err (List Machine))
  createAppResps : List (Except Err App)
  deleteAppResps : List (Except Err Unit)
  allocateIPResps : List (Except Err Unit)
  waitForAppResps : List (Except Err Unit)
  createVolumeResps : List (Except Err Volume)
  deleteVolumeResps : List (Except Err Unit)
  launchResps : List (Except Err Machine)
  deriving Repr

/-- A run's mutable state: the remaining scripted responses and the
chronological trace of events so far. -/
structure RunState where
  env : Env
  trace : List Event
  deriving Repr

/-- The response a stream yields when the script is exhausted (an artifact
of the harness, never reached in the scenarios the theorems script). -/
def noScript : Err := Err.other "no scripted response"

/-- Model of `flapsClient.GetVolumes(ctx)`. -/
def callGetVolumes (s : RunState) : Except Err (List Volume) × RunState :=
  match s.env.getVolumesResps with
  | [] => (.error noScript, { s with trace := s.trace ++ [Event.getVolumes] })
  | r :: rest =>
    (r,
     { s with
        trace := s.trace ++ [Event.getVolumes],
        env := { s.env with getVolumesResps := rest } })

/-- Model of `flapsClient.List(ctx, "")`. -/
def callListMachines (s : RunState) : Except Err (List Machine) × RunState :=
  match s.env.listResps with
  | [] => (.error noScript, { s with trace := s.trace ++ [Event.listMachines] })
  | r :: rest =>
    (r,
     { s with
        trace := s.trace ++ [Event.listMachines],
        env := { s.env with listResps := rest } })

/-- Model of `client.CreateApp(ctx, input)`. -/
def callCreateApp (input : CreateAppInput) (s : RunState) :
    Except Err App × RunState :=
  match s.env.createAppResps with
  | [] => (.error noScript, { s with trace := s.trace ++ [Event.createApp input] })
  | r :: rest =>
    (r,
     { s with
        trace := s.trace ++ [Event.createApp input],
        env := { s.env with createAppResps := rest } })

/-- Model of `client.DeleteApp(ctx, name)`. -/
def callDeleteApp (name : String) (s : RunState) :
    Except Err Unit × RunState :=
  match s.env.deleteAppResps with
  | [] => (.error noScript, { s with trace := s.trace ++ [Event.deleteApp name] })
  | r :: rest =>
    (r,
     { s with
        trace := s.trace ++ [Event.deleteApp name],
        env := { s.env with deleteAppResps := rest } })

/-- Model of `client.AllocateIPAddress(ctx, appName, "shared_v4", "", org, "")`
(the returned address is discarded by the source: `_, err = ...`). -/
def callAllocateIP (appName addrType : String) (s : RunState) :
    Except Err Unit × RunState :=
  match s.env.allocateIPResps with
  | [] => (.error noScript, { s with trace := s.trace ++ [Event.allocateIP appName addrType] })
  | r :: rest =>
    (r,
     { s with
        trace := s.trace ++ [Event.allocateIP appName addrType],
        env := { s.env with allocateIPResps := rest } })

/-- Model of `flapsClient.WaitForApp(ctx, name)`. -/
def callWaitForApp (name : String) (s : RunState) :
    Except Err Unit × RunState :=
  match s.env.waitForAppResps with
  | [] => (.error noScript, { s with trace := s.trace ++ [Event.waitForApp name] })
  | r :: rest =>
    (r,
     { s with
        trace := s.trace ++ [Event.waitForApp name],
        env := { s.env with waitForAppResps := rest } })

/-- Model of `flapsClient.CreateVolume(ctx, req)`. -/
def callCreateVolume (req : CreateVolumeRequest) (s : RunState) :
    Except Err Volume × RunState :=
  match s.env.createVolumeResps with
  | [] => (.error noScript, { s with trace := s.trace ++ [Event.createVolume req] })
  | r :: rest =>
    (r,
     { s with
        trace := s.trace ++ [Event.createVolume req],
        env := { s.env with createVolumeResps := rest } })

/-- Model of `flapsClient.DeleteVolume(ctx, volumeId)`. -/
def callDeleteVolume (volumeId : String) (s : RunState) :
    Except Err Unit × RunState :=
  match s.env.deleteVolumeResps with
  | [] => (.error noScript, { s with trace := s.trace ++ [Event.deleteVolume volumeId] })
  | r :: rest =>
    (r,
     { s with
        trace := s.trace ++ [Event.deleteVolume volumeId],
        env := { s.env with deleteVolumeResps := rest } })

/-- Model of `flapsClient.Launch(ctx, input)`. -/
def callLaunch (input : LaunchMachineInput) (s : RunState) :
    Except Err Machine × RunState :=
  match s.env.launchResps with
  | [] => (.error noScript, { s with trace := s.trace ++ [Event.launch input] })
  | r :: rest =>
    (r,
     { s with
        trace := s.trace ++ [Event.launch input],
        env := { s.env with launchResps := rest } })

/-- Model of `time.Sleep(1 * time.Second)`. -/
def doSleep (s : RunState) : RunState :=
  { s with trace := s.trace ++ [Event.sleep1s] }

/-- The `for` loop of `validateBuilderVolumes`.  `fuel` is the number of
retries still allowed: the source counts `numRetries` up and returns the
error once `numRetries >= 3`, so the loop makes at most 3 attempts and
starts with `fuel = 2`.  A failed attempt is retried (after a 1-second
sleep) exactly when the error is a flaps error with a 5xx status. -/
def volumesLoop : Nat → RunState → Except Err (List Volume) × RunState
  | fuel, s =>
    match callGetVolumes s with
    | (.ok vs, s1) => (.ok vs, s1)
    | (.error e, s1) =>
      if isServerError e then
        match fuel with
        | 0 => (.error e, s1)
        | f + 1 => volumesLoop f (doSleep s1)
      else (.error e, s1)

/-- Embedding of `validateBuilderVolumes`: retry-list the volumes (3-attempt budget);
empty list → `NoBuilderVolume`; else return `&volumes[0]`. -/
def validateBuilderVolumes (s : RunState) : Except Err Volume × RunState :=
  match volumesLoop 2 s with
  | (.error e, s1) => (.error e, s1)
  | (.ok volumes, s1) =>
    match volumes with
    | [] => (.error (.validate .NoBuilderVolume), s1)
    | v :: _ => (.ok v, s1)

/-- The `for` loop of `validateBuilderMachines` (3-attempt budget, same
retry condition). -/
def machinesLoop : Nat → RunState → Except Err (List Machine) × RunState
  | fuel, s =>
    match callListMachines s with
    | (.ok ms, s1) => (.ok ms, s1)
    | (.error e, s1) =>
      if isServerError e then
        match fuel with
        | 0 => (.error e, s1)
        | f + 1 => machinesLoop f (doSleep s1)
      else (.error e, s1)

/-- Embedding of `validateBuilderMachines`: retry-list the machines (3-attempt
budget); `len(machines) != 1` → `InvalidMachineCount`; else return the
single machine. -/
def validateBuilderMachines (s : RunState) : Except Err Machine × RunState :=
  match machinesLoop 2 s with
  | (.error e, s1) => (.error e, s1)
  | (.ok machines, s1) =>
    match machines with
    | [m] => (.ok m, s1)
    | _ => (.error (.validate .InvalidMachineCount), s1)

/-- Embedding of `validateBuilder(ctx, app)`: `app == nil` → `NoBuilderApp`; else
validate volumes, then machines. -/
def validateBuilder (app : Option App) (s : RunState) :
    Except Err Machine × RunState :=
  match app with
  | none => (.error (.validate .NoBuilderApp), s)
  | some _ =>
    match validateBuilderVolumes s with
    | (.error e, s1) => (.error e, s1)
    | (.ok _, s1) => validateBuilderMachines s1

/-- The fixed guest of `createBuilder`:
`fly.MachineGuest{CPUKind: "shared", CPUs: 4, MemoryMB: 4096}`. -/
def builderGuest : MachineGuest :=
  { cpuKind := "shared", cpus := 4, memoryMB := 4096 }

/-- The `fly.CreateAppInput` built by `createBuilder`. -/
def mkCreateAppInput (org : Organization) (builderName region : String) :
    CreateAppInput :=
  { organizationID := org.id
  , name := builderName
  , appRoleID := "remote-docker-builder"
  , machines := true
  , preferredRegion := region }

/-- The `fly.CreateVolumeRequest` built by `createBuilder`. -/
def mkVolumeReq (region : String) : CreateVolumeRequest :=
  { name := "machine_data"
  , sizeGb := 50
  , autoBackupEnabled := false
  , computeRequirements := builderGuest
  , region := region }

/-- The `fly.LaunchMachineInput` built by `createBuilder` (including the
`lo.Ternary` image default). -/
def mkLaunchInput (org : Organization) (region : String) (app : App)
    (volume : Volume) : LaunchMachineInput :=
  { region := region
  , config :=
    { env := [("ALLOW_ORG_SLUG", org.slug), ("DATA_DIR", "/data"),
              ("LOG_LEVEL", "debug")]
    , guest := builderGuest
    , mounts := [{ path := "/data", volume := volume.id, name := app.name }]
    , services :=
      [{ protocol := "tcp"
       , internalPort := 8080
       , autostop := false
       , autostart := true
       , minMachinesRunning := 0
       , ports :=
         [{ port := 80, handlers := ["http"], forceHTTPS := true,
            tlsALPN := [], h2Backend := true },
          { port := 443, handlers := ["http", "tls"], forceHTTPS := false,
            tlsALPN := ["h2"], h2Backend := true }] }]
    , image := if org.remoteBuilderImage ≠ "" then org.remoteBuilderImage
               else "docker-hub-mirror.fly.io/flyio/rchab:sha-9346699" } }

/-- The `for` loop around `flapsClient.CreateVolume` in `createBuilder`:
5-attempt budget (`numRetries >= 5`), so it starts with `fuel = 4`; same
retry condition and 1-second sleep as the read loops. -/
def createVolumeLoop (req : CreateVolumeRequest) :
    Nat → RunState → Except Err Volume × RunState
  | fuel, s =>
    match callCreateVolume req s with
    | (.ok v, s1) => (.ok v, s1)
    | (.error e, s1) =>
      if isServerError e then
        match fuel with
        | 0 => (.error e, s1)
        | f + 1 => createVolumeLoop req f (doSleep s1)
      else (.error e, s1)

/-- The deferred `client.DeleteApp(ctx, builderName)` registered by
`createBuilder` after the app is created: it fires only when the named
return `err` is non-nil, and its own result is discarded. -/
def rollbackApp (builderName : String) (s : RunState) : RunState :=
  (callDeleteApp builderName s).2

/-- The deferred `flapsClient.DeleteVolume(ctx, volume.ID)` registered by
`createBuilder` after the volume is created: fires only on error, result
discarded. -/
def rollbackVolume (volumeId : String) (s : RunState) : RunState :=
  (callDeleteVolume volumeId s).2

/-- Embedding of `createBuilder(ctx, org, region, builderName)`.  The two `defer`red
rollbacks are made explicit: on every error return after `CreateApp`
succeeded the registered rollbacks run in reverse order of registration
(volume rollback first when it exists, then app rollback), their results
are discarded, and the original step error is returned. -/
def createBuilder (org : Organization) (region builderName : String)
    (s : RunState) : Except Err (App × Machine) × RunState :=
  match callCreateApp (mkCreateAppInput org builderName region) s with
  | (.error e, s1) => (.error e, s1)
  | (.ok app, s1) =>
    match callAllocateIP app.name "shared_v4" s1 with
    | (.error e, s2) => (.error e, rollbackApp builderName s2)
    | (.ok _, s2) =>
      match callWaitForApp app.name s2 with
      | (.error e, s3) =>
        (.error (.wrapped ("waiting for app " ++ app.name) e),
         rollbackApp builderName s3)
      | (.ok _, s3) =>
        match createVolumeLoop (mkVolumeReq region) 4 s3 with
        | (.error e, s4) => (.error e, rollbackApp builderName s4)
        | (.ok volume, s4) =>
          match callLaunch (mkLaunchInput org region app volume) s4 with
          | (.error e, s5) =>
            (.error e, rollbackApp builderName (rollbackVolume volume.id s5))
          | (.ok mach, s5) => (.ok (app, mach), s5)

/-- The tail of `EnsureBuilder`: generate the fresh builder name
(`"fly-builder-" + haikunator.Haikunator().Build()`) and call
`createBuilder`, returning `(machine, app)`. -/
def createAndReturn (org : Organization) (region : String) (s : RunState) :
    Except Err (Machine × App) × RunState :=
  let builderName := "fly-builder-" ++ s.env.haikunatorName
  match createBuilder org region builderName s with
  | (.error e, s1) => (.error e, s1)
  | (.ok (app, mach), s1) => (.ok (mach, app), s1)

/-- Embedding of `EnsureBuilder(ctx, org, region)`.  Validate the recorded builder
app; on success return it; if the validation error is not a
`ValidateBuilderError`, return it; if it is and is not `NoBuilderApp`,
delete the existing builder app (a deletion failure is returned, fatal);
then create a fresh builder under a freshly generated name.
(The result pairs a `Machine` with an `Option App` because the Go
function returns possibly-nil pointers; on the fast path the app is the
recorded `org.RemoteBuilderApp`.) -/
def EnsureBuilder (org : Organization) (region : String) (s : RunState) :
    Except Err (Machine × Option App) × RunState :=
  match validateBuilder org.remoteBuilderApp s with
  | (.ok machine, s1) => (.ok (machine, org.remoteBuilderApp), s1)
  | (.error e, s1) =>
    match asValidateBuilderError e with
    | none => (.error e, s1)
    | some vErr =>
      if vErr = ValidateBuilderError.NoBuilderApp then
        match createAndReturn org region s1 with
        | (.error e2, s2) => (.error e2, s2)
        | (.ok (mach, app), s2) => (.ok (mach, some app), s2)
      else
        match org.remoteBuilderApp with
        | none =>
          -- unreachable: `NoBuilderVolume`/`InvalidMachineCount` are only
          -- produced when an app is present (Go would nil-deref here)
          (.error (.other "nil builder app"), s1)
        | some a =>
          match callDeleteApp a.name s1 with
          | (.error de, s2) => (.error de, s2)
          | (.ok _, s2) =>
            match createAndReturn org region s2 with
            | (.error e2, s3) => (.error e2, s3)
            | (.ok (mach, app), s3) => (.ok (mach, some app), s3)

/-- Run `EnsureBuilder` from a fresh trace against an environment. -/
def runEnsureBuilder (org : Organization) (region : String) (env : Env) :
    Except Err (Machine × Option App) × List Event :=
  let r := EnsureBuilder org region { env := env, trace := [] }
  (r.1, r.2.trace)

/-- Run `validateBuilder` from a fresh trace. -/
def runValidateBuilder (app : Option App) (env : Env) :
    Except Err Machine × List Event :=
  let r := validateBuilder app { env := env, trace := [] }
  (r.1, r.2.trace)

/-- Run `validateBuilderVolumes` from a fresh trace. -/
def runValidateBuilderVolumes (env : Env) :
    Except Err Volume × List Event :=
  let r := validateBuilderVolumes { env := env, trace := [] }
  (r.1, r.2.trace)

/-- Run `validateBuilderMachines` from a fresh trace. -/
def runValidateBuilderMachines (env : Env) :
    Except Err Machine × List Event :=
  let r := validateBuilderMachines { env := env, trace := [] }
  (r.1, r.2.trace)

/-- Run `createBuilder` from a fresh trace. -/
def runCreateBuilder (org : Organization) (region builderName : String)
    (env : Env) : Except Err (App × Machine) × List Event :=
  let r := createBuilder org region builderName { env := env, trace := [] }
  (r.1, r.2.trace)

/-- The creation calls of the remote API: app registration, address
allocation, volume creation, machine launch. -/
def Event.isCreation : Event → Bool
  | .createApp _ => true
  | .allocateIP _ _ => true
  | .createVolume _ => true
  | .launch _ => true
  | _ => false

/-- A `createVolume` event, of any request. -/
def Event.isCreateVolume : Event → Bool
  | .createVolume _ => true
  | _ => false

/-- An empty environment, extended per scenario in concrete runs. -/
def env0 : Env :=
  { haikunatorName := ""
  , ctxCanceled := false
  , getVolumesResps := []
  , listResps := []
  , createAppResps := []
  , deleteAppResps := []
  , allocateIPResps := []
  , waitForAppResps := []
  , createVolumeResps := []
  , deleteVolumeResps := []
  , launchResps := [] }

/-- The kinds of events a `createBuilder org region builderName` run can
append: every `createApp` carries exactly the input built from
`org`/`builderName`/`region`, every `createVolume` carries exactly
`mkVolumeReq region`, and every `launch` carries `builderGuest`. -/
def createSegEvent (org : Organization) (region builderName : String)
    (e : Event) : Prop :=
  e = Event.createApp (mkCreateAppInput org builderName region)
  ∨ (∃ n t, e = Event.allocateIP n t)
  ∨ (∃ n, e = Event.waitForApp n)
  ∨ e = Event.createVolume (mkVolumeReq region)
  ∨ (∃ li, e = Event.launch li ∧ li.config.guest = builderGuest)
  ∨ (∃ n, e = Event.deleteApp n)
  ∨ (∃ v, e = Event.deleteVolume v)
  ∨ e = Event.sleep1s

/-! ## Trace bookkeeping lemmas -/

theorem callGetVolumes_trace (s : RunState) :
    (callGetVolumes s).2.trace = s.trace ++ [Event.getVolumes] := by
  unfold callGetVolumes
  cases s.env.getVolumesResps <;> rfl

theorem callListMachines_trace (s : RunState) :
    (callListMachines s).2.trace = s.trace ++ [Event.listMachines] := by
  unfold callListMachines
  cases s.env.listResps <;> rfl

theorem callCreateApp_trace (inp : CreateAppInput) (s : RunState) :
    (callCreateApp inp s).2.trace = s.trace ++ [Event.createApp inp] := by
  unfold callCreateApp
  cases s.env.createAppResps <;> rfl

theorem callDeleteApp_trace (n : String) (s : RunState) :
    (callDeleteApp n s).2.trace = s.trace ++ [Event.deleteApp n] := by
  unfold callDeleteApp
  cases s.env.deleteAppResps <;> rfl

theorem callAllocateIP_trace (n t : String) (s : RunState) :
    (callAllocateIP n t s).2.trace = s.trace ++ [Event.allocateIP n t] := by
  unfold callAllocateIP
  cases s.env.allocateIPResps <;> rfl

theorem callWaitForApp_trace (n : String) (s : RunState) :
    (callWaitForApp n s).2.trace = s.trace ++ [Event.waitForApp n] := by
  unfold callWaitForApp
  cases s.env.waitForAppResps <;> rfl

theorem callCreateVolume_trace (req : CreateVolumeRequest) (s : RunState) :
    (callCreateVolume req s).2.trace = s.trace ++ [Event.createVolume req] := by
  unfold callCreateVolume
  cases s.env.createVolumeResps <;> rfl

theorem callDeleteVolume_trace (v : String) (s : RunState) :
    (callDeleteVolume v s).2.trace = s.trace ++ [Event.deleteVolume v] := by
  unfold callDeleteVolume
  cases s.env.deleteVolumeResps <;> rfl

theorem callLaunch_trace (inp : LaunchMachineInput) (s : RunState) :
    (callLaunch inp s).2.trace = s.trace ++ [Event.launch inp] := by
  unfold callLaunch
  cases s.env.launchResps <;> rfl

theorem rollbackApp_trace (n : String) (s : RunState) :
    (rollbackApp n s).trace = s.trace ++ [Event.deleteApp n] :=
  callDeleteApp_trace n s

theorem rollbackVolume_trace (v : String) (s : RunState) :
    (rollbackVolume v s).trace = s.trace ++ [Event.deleteVolume v] :=
  callDeleteVolume_trace v s

/-- The volumes retry loop only appends `getVolumes` calls and sleeps,
at most `fuel + 1` calls in total. -/
theorem volumesLoop_shape (fuel : Nat) :
    ∀ s : RunState, ∃ t : List Event,
      (volumesLoop fuel s).2.trace = s.trace ++ t
      ∧ (∀ e ∈ t, e = Event.getVolumes ∨ e = Event.sleep1s)
      ∧ t.count Event.getVolumes ≤ fuel + 1 := by
  induction fuel with
  | zero =>
    intro s
    rcases hr : callGetVolumes s with ⟨e | vs, s1⟩
    · have ht : s1.trace = s.trace ++ [Event.getVolumes] := by
        have h := callGetVolumes_trace s
        rw [hr] at h
        exact h
      refine ⟨[Event.getVolumes], ?_, ?_, ?_⟩
      · cases hse : isServerError e <;> simp [volumesLoop, hr, hse, ht]
      · intro x hx
        simp at hx
        exact Or.inl hx
      · decide
    · have ht : s1.trace = s.trace ++ [Event.getVolumes] := by
        have h := callGetVolumes_trace s
        rw [hr] at h
        exact h
      refine ⟨[Event.getVolumes], ?_, ?_, ?_⟩
      · simp [volumesLoop, hr, ht]
      · intro x hx
        simp at hx
        exact Or.inl hx
      · decide
  | succ f ih =>
    intro s
    rcases hr : callGetVolumes s with ⟨e | vs, s1⟩
    · have ht : s1.trace = s.trace ++ [Event.getVolumes] := by
        have h := callGetVolumes_trace s
        rw [hr] at h
        exact h
      cases hse : isServerError e
      · refine ⟨[Event.getVolumes], ?_, ?_, ?_⟩
        · rw [volumesLoop, hr]
          simp [hse, ht]
        · intro x hx
          simp at hx
          exact Or.inl hx
        · have hc : ([Event.getVolumes] : List Event).count Event.getVolumes = 1 := by
            decide
          omega
      · obtain ⟨t', h1, h2, h3⟩ := ih (doSleep s1)
        refine ⟨[Event.getVolumes, Event.sleep1s] ++ t', ?_, ?_, ?_⟩
        · have hstep : volumesLoop (f + 1) s = volumesLoop f (doSleep s1) := by
            rw [volumesLoop, hr]
            simp [hse]
          rw [hstep, h1]
          simp [doSleep, ht]
        · intro x hx
          rcases List.mem_append.1 hx with h | h
          · simp at h
            rcases h with h | h
            · exact Or.inl h
            · exact Or.inr h
          · exact h2 x h
        · rw [List.count_append]
          have hc : ([Event.getVolumes, Event.sleep1s] : List Event).count
              Event.getVolumes = 1 := by decide
          rw [hc]
          omega
    · have ht : s1.trace = s.trace ++ [Event.getVolumes] := by
        have h := callGetVolumes_trace s
        rw [hr] at h
        exact h
      refine ⟨[Event.getVolumes], ?_, ?_, ?_⟩
      · rw [volumesLoop, hr]
        simp [ht]
      · intro x hx
        simp at hx
        exact Or.inl hx
      · have hc : ([Event.getVolumes] : List Event).count Event.getVolumes = 1 := by
          decide
        omega

/-- The machines retry loop only appends `listMachines` calls and sleeps,
at most `fuel + 1` calls in total. -/
theorem machinesLoop_shape (fuel : Nat) :
    ∀ s : RunState, ∃ t : List Event,
      (machinesLoop fuel s).2.trace = s.trace ++ t
      ∧ (∀ e ∈ t, e = Event.listMachines ∨ e = Event.sleep1s)
      ∧ t.count Event.listMachines ≤ fuel + 1 := by
  induction fuel with
  | zero =>
    intro s
    rcases hr : callListMachines s with ⟨e | ms, s1⟩
    · have ht : s1.trace = s.trace ++ [Event.listMachines] := by
        have h := callListMachines_trace s
        rw [hr] at h
        exact h
      refine ⟨[Event.listMachines], ?_, ?_, ?_⟩
      · cases hse : isServerError e <;> simp [machinesLoop, hr, hse, ht]
      · intro x hx
        simp at hx
        exact Or.inl hx
      · decide
    · have ht : s1.trace = s.trace ++ [Event.listMachines] := by
        have h := callListMachines_trace s
        rw [hr] at h
        exact h
      refine ⟨[Event.listMachines], ?_, ?_, ?_⟩
      · simp [machinesLoop, hr, ht]
      · intro x hx
        simp at hx
        exact Or.inl hx
      · decide
  | succ f ih =>
    intro s
    rcases hr : callListMachines s with ⟨e | ms, s1⟩
    · have ht : s1.trace = s.trace ++ [Event.listMachines] := by
        have h := callListMachines_trace s
        rw [hr] at h
        exact h
      cases hse : isServerError e
      · refine ⟨[Event.listMachines], ?_, ?_, ?_⟩
        · rw [machinesLoop, hr]
          simp [hse, ht]
        · intro x hx
          simp at hx
          exact Or.inl hx
        · have hc : ([Event.listMachines] : List Event).count Event.listMachines = 1 := by
            decide
          omega
      · obtain ⟨t', h1, h2, h3⟩ := ih (doSleep s1)
        refine ⟨[Event.listMachines, Event.sleep1s] ++ t', ?_, ?_, ?_⟩
        · have hstep : machinesLoop (f + 1) s = machinesLoop f (doSleep s1) := by
            rw [machinesLoop, hr]
            simp [hse]
          rw [hstep, h1]
          simp [doSleep, ht]
        · intro x hx
          rcases List.mem_append.1 hx with h | h
          · simp at h
            rcases h with h | h
            · exact Or.inl h
            · exact Or.inr h
          · exact h2 x h
        · rw [List.count_append]
          have hc : ([Event.listMachines, Event.sleep1s] : List Event).count
              Event.listMachines = 1 := by decide
          rw [hc]
          omega
    · have ht : s1.trace = s.trace ++ [Event.listMachines] := by
        have h := callListMachines_trace s
        rw [hr] at h
        exact h
      refine ⟨[Event.listMachines], ?_, ?_, ?_⟩
      · rw [machinesLoop, hr]
        simp [ht]
      · intro x hx
        simp at hx
        exact Or.inl hx
      · have hc : ([Event.listMachines] : List Event).count Event.listMachines = 1 := by
          decide
        omega

/-- The volume-creation retry loop only appends `createVolume req` calls
and sleeps, at most `fuel + 1` calls in total. -/
theorem createVolumeLoop_shape (req : CreateVolumeRequest) (fuel : Nat) :
    ∀ s : RunState, ∃ t : List Event,
      (createVolumeLoop req fuel s).2.trace = s.trace ++ t
      ∧ (∀ e ∈ t, e = Event.createVolume req ∨ e = Event.sleep1s)
      ∧ t.countP Event.isCreateVolume ≤ fuel + 1 := by
  induction fuel with
  | zero =>
    intro s
    rcases hr : callCreateVolume req s with ⟨e | v, s1⟩
    · have ht : s1.trace = s.trace ++ [Event.createVolume req] := by
        have h := callCreateVolume_trace req s
        rw [hr] at h
        exact h
      refine ⟨[Event.createVolume req], ?_, ?_, ?_⟩
      · cases hse : isServerError e <;> simp [createVolumeLoop, hr, hse, ht]
      · intro x hx
        simp at hx
        exact Or.inl hx
      · simp [Event.isCreateVolume]
    · have ht : s1.trace = s.trace ++ [Event.createVolume req] := by
        have h := callCreateVolume_trace req s
        rw [hr] at h
        exact h
      refine ⟨[Event.createVolume req], ?_, ?_, ?_⟩
      · simp [createVolumeLoop, hr, ht]
      · intro x hx
        simp at hx
        exact Or.inl hx
      · simp [Event.isCreateVolume]
  | succ f ih =>
    intro s
    rcases hr : callCreateVolume req s with ⟨e | v, s1⟩
    · have ht : s1.trace = s.trace ++ [Event.createVolume req] := by
        have h := callCreateVolume_trace req s
        rw [hr] at h
        exact h
      cases hse : isServerError e
      · refine ⟨[Event.createVolume req], ?_, ?_, ?_⟩
        · rw [createVolumeLoop, hr]
          simp [hse, ht]
        · intro x hx
          simp at hx
          exact Or.inl hx
        · have hc : ([Event.createVolume req] : List Event).countP
              Event.isCreateVolume = 1 := by
            simp [Event.isCreateVolume]
          omega
      · obtain ⟨t', h1, h2, h3⟩ := ih (doSleep s1)
        refine ⟨[Event.createVolume req, Event.sleep1s] ++ t', ?_, ?_, ?_⟩
        · have hstep : createVolumeLoop req (f + 1) s = createVolumeLoop req f (doSleep s1) := by
            rw [createVolumeLoop, hr]
            simp [hse]
          rw [hstep, h1]
          simp [doSleep, ht]
        · intro x hx
          rcases List.mem_append.1 hx with h | h
          · simp at h
            rcases h with h | h
            · exact Or.inl h
            · exact Or.inr h
          · exact h2 x h
        · rw [List.countP_append]
          have hc : ([Event.createVolume req, Event.sleep1s] : List Event).countP
              Event.isCreateVolume = 1 := by
            simp [Event.isCreateVolume]
          rw [hc]
          omega
    · have ht : s1.trace = s.trace ++ [Event.createVolume req] := by
        have h := callCreateVolume_trace req s
        rw [hr] at h
        exact h
      refine ⟨[Event.createVolume req], ?_, ?_, ?_⟩
      · rw [createVolumeLoop, hr]
        simp [ht]
      · intro x hx
        simp at hx
        exact Or.inl hx
      · have hc : ([Event.createVolume req] : List Event).countP
            Event.isCreateVolume = 1 := by
          simp [Event.isCreateVolume]
        omega

/-- The function `validateBuilderVolumes` adds no events beyond its retry loop. -/
theorem validateBuilderVolumes_trace (s : RunState) :
    (validateBuilderVolumes s).2.trace = (volumesLoop 2 s).2.trace := by
  rcases h : volumesLoop 2 s with ⟨e | vs, s1⟩
  · simp [validateBuilderVolumes, h]
  · cases vs <;> simp [validateBuilderVolumes, h]

/-- The function `validateBuilderMachines` adds no events beyond its retry loop. -/
theorem validateBuilderMachines_trace (s : RunState) :
    (validateBuilderMachines s).2.trace = (machinesLoop 2 s).2.trace := by
  rcases h : machinesLoop 2 s with ⟨e | ms, s1⟩
  · simp [validateBuilderMachines, h]
  · rcases ms with _ | ⟨m, _ | ⟨m2, ms'⟩⟩ <;> simp [validateBuilderMachines, h]

/-- The trace of `validateBuilder` decomposes into a volume-reading
segment followed by a machine-reading segment: all `getVolumes` calls
precede all `listMachines` calls, and nothing else is ever called. -/
theorem validateBuilder_events (app : Option App) (s : RunState) :
    ∃ t1 t2 : List Event,
      (validateBuilder app s).2.trace = s.trace ++ t1 ++ t2
      ∧ (∀ e ∈ t1, e = Event.getVolumes ∨ e = Event.sleep1s)
      ∧ (∀ e ∈ t2, e = Event.listMachines ∨ e = Event.sleep1s) := by
  cases app with
  | none =>
    refine ⟨[], [], by simp [validateBuilder], by simp, by simp⟩
  | some a =>
    rcases hv : validateBuilderVolumes s with ⟨rv, s1⟩
    obtain ⟨t1, h1, h1e, _⟩ := volumesLoop_shape 2 s
    have hs1 : s1.trace = s.trace ++ t1 := by
      have h := validateBuilderVolumes_trace s
      rw [hv] at h
      rw [h, h1]
    cases rv with
    | error e =>
      refine ⟨t1, [], ?_, h1e, by simp⟩
      simp [validateBuilder, hv, hs1]
    | ok v =>
      obtain ⟨t2, h2, h2e, _⟩ := machinesLoop_shape 2 s1
      have hm : (validateBuilder (some a) s).2.trace = s1.trace ++ t2 := by
        have h := validateBuilderMachines_trace s1
        simp only [validateBuilder, hv]
        rw [h, h2]
      exact ⟨t1, t2, by rw [hm, hs1, List.append_assoc], h1e, h2e⟩

/-- Claim C1: `validateBuilder` outcomes.  No builder app reference →
`Invalid(NoBuilderApp)`.  Otherwise, when the remote list calls succeed
(first `GetVolumes` response is `ok vs`, first `List` response is
`ok ms`): empty `vs` → `Invalid(NoBuilderVolume)`; `ms` of length ≠ 1 →
`Invalid(InvalidMachineCount)`; otherwise `Valid` carrying the single
machine of `ms`.  No other outcome is possible. -/
theorem C1_validator_outcomes
    (env : Env) (vs : List Volume) (ms : List Machine)
    (rv : List (Except Err (List Volume)))
    (rm : List (Except Err (List Machine)))
    (hv : env.getVolumesResps = Except.ok vs :: rv)
    (hm : env.listResps = Except.ok ms :: rm) :
    (runValidateBuilder none env).1 =
      Except.error (Err.validate ValidateBuilderError.NoBuilderApp)
    ∧ ∀ a : App,
        (runValidateBuilder (some a) env).1 =
          if vs = [] then
            Except.error (Err.validate ValidateBuilderError.NoBuilderVolume)
          else
            match ms with
            | [m] => Except.ok m
            | _ => Except.error
                (Err.validate ValidateBuilderError.InvalidMachineCount) := by
  constructor
  · rfl
  · intro a
    cases vs <;> rcases ms with _ | ⟨m, _ | ⟨m2, ms'⟩⟩ <;>
      simp [runValidateBuilder, validateBuilder, validateBuilderVolumes,
            validateBuilderMachines, volumesLoop, machinesLoop,
            callGetVolumes, callListMachines, hv, hm]

/-- Witness for C1: a concrete environment with one volume and exactly
one machine validates to that machine; a missing app reference yields
`NoBuilderApp`. -/
theorem C1_validator_outcomes_witness :
    (runValidateBuilder none
        { env0 with
            getVolumesResps := [Except.ok [{ id := "vol1" }]],
            listResps := [Except.ok [{ id := "mach1" }]] }).1 =
      Except.error (Err.validate ValidateBuilderError.NoBuilderApp)
    ∧ (runValidateBuilder (some { id := "app1", name := "fly-builder-x" })
        { env0 with
            getVolumesResps := [Except.ok [{ id := "vol1" }]],
            listResps := [Except.ok [{ id := "mach1" }]] }).1 =
      Except.ok { id := "mach1" } := by
  have h := C1_validator_outcomes
    { env0 with
        getVolumesResps := [Except.ok [{ id := "vol1" }]],
        listResps := [Except.ok [{ id := "mach1" }]] }
    [{ id := "vol1" }] [{ id := "mach1" }] [] [] rfl rfl
  exact ⟨h.1, h.2 { id := "app1", name := "fly-builder-x" }⟩

/-- Trace decomposition of `createBuilder`: it appends only events of
the shapes in `createSegEvent`, with at most 5 `createVolume` calls. -/
theorem createBuilder_trace (org : Organization) (region builderName : String)
    (s : RunState) :
    ∃ t : List Event,
      (createBuilder org region builderName s).2.trace = s.trace ++ t
      ∧ (∀ e ∈ t, createSegEvent org region builderName e)
      ∧ t.countP Event.isCreateVolume ≤ 5 := by
  rcases h1 : callCreateApp (mkCreateAppInput org builderName region) s
    with ⟨r1, s1⟩
  have ht1 : s1.trace =
      s.trace ++ [Event.createApp (mkCreateAppInput org builderName region)] := by
    have h := callCreateApp_trace (mkCreateAppInput org builderName region) s
    rw [h1] at h
    exact h
  cases r1 with
  | error e =>
    refine ⟨[Event.createApp (mkCreateAppInput org builderName region)],
      ?_, ?_, ?_⟩
    · simp [createBuilder, h1, ht1]
    · intro x hx
      simp at hx
      subst hx
      exact Or.inl rfl
    · simp [Event.isCreateVolume]
  | ok app =>
    rcases h2 : callAllocateIP app.name "shared_v4" s1 with ⟨r2, s2⟩
    have ht2 : s2.trace = s1.trace ++ [Event.allocateIP app.name "shared_v4"] := by
      have h := callAllocateIP_trace app.name "shared_v4" s1
      rw [h2] at h
      exact h
    cases r2 with
    | error e =>
      refine ⟨[Event.createApp (mkCreateAppInput org builderName region),
               Event.allocateIP app.name "shared_v4",
               Event.deleteApp builderName], ?_, ?_, ?_⟩
      · have htr := rollbackApp_trace builderName s2
        simp [createBuilder, h1, h2, htr, ht2, ht1]
      · intro x hx
        simp at hx
        rcases hx with hx | hx | hx
        · subst hx; exact Or.inl rfl
        · subst hx; exact Or.inr (Or.inl ⟨_, _, rfl⟩)
        · subst hx; exact Or.inr (Or.inr (Or.inr (Or.inr (Or.inr
            (Or.inl ⟨_, rfl⟩)))))
      · simp [Event.isCreateVolume]
    | ok _ =>
      rcases h3 : callWaitForApp app.name s2 with ⟨r3, s3⟩
      have ht3 : s3.trace = s2.trace ++ [Event.waitForApp app.name] := by
        have h := callWaitForApp_trace app.name s2
        rw [h3] at h
        exact h
      cases r3 with
      | error e =>
        refine ⟨[Event.createApp (mkCreateAppInput org builderName region),
                 Event.allocateIP app.name "shared_v4",
                 Event.waitForApp app.name,
                 Event.deleteApp builderName], ?_, ?_, ?_⟩
        · have htr := rollbackApp_trace builderName s3
          simp [createBuilder, h1, h2, h3, htr, ht3, ht2, ht1]
        · intro x hx
          simp at hx
          rcases hx with hx | hx | hx | hx
          · subst hx; exact Or.inl rfl
          · subst hx; exact Or.inr (Or.inl ⟨_, _, rfl⟩)
          · subst hx; exact Or.inr (Or.inr (Or.inl ⟨_, rfl⟩))
          · subst hx; exact Or.inr (Or.inr (Or.inr (Or.inr (Or.inr
              (Or.inl ⟨_, rfl⟩)))))
        · simp [Event.isCreateVolume]
      | ok _ =>
        rcases h4 : createVolumeLoop (mkVolumeReq region) 4 s3 with ⟨r4, s4⟩
        obtain ⟨tL, hL, hLe, hLc⟩ := createVolumeLoop_shape (mkVolumeReq region) 4 s3
        have ht4 : s4.trace = s3.trace ++ tL := by
          rw [h4] at hL
          exact hL
        cases r4 with
        | error e =>
          refine ⟨[Event.createApp (mkCreateAppInput org builderName region),
                   Event.allocateIP app.name "shared_v4",
                   Event.waitForApp app.name] ++ tL ++
                   [Event.deleteApp builderName], ?_, ?_, ?_⟩
          · have htr := rollbackApp_trace builderName s4
            simp only [createBuilder, h1, h2, h3, h4]
            rw [htr, ht4, ht3, ht2, ht1]
            simp
          · intro x hx
            simp at hx
            rcases hx with hx | hx | hx | hx | hx
            · subst hx; exact Or.inl rfl
            · subst hx; exact Or.inr (Or.inl ⟨_, _, rfl⟩)
            · subst hx; exact Or.inr (Or.inr (Or.inl ⟨_, rfl⟩))
            · rcases hLe x hx with hx | hx
              · subst hx; exact Or.inr (Or.inr (Or.inr (Or.inl rfl)))
              · subst hx; exact Or.inr (Or.inr (Or.inr (Or.inr (Or.inr
                  (Or.inr (Or.inr rfl))))))
            · subst hx; exact Or.inr (Or.inr (Or.inr (Or.inr (Or.inr
                (Or.inl ⟨_, rfl⟩)))))
          · rw [List.countP_append, List.countP_append]
            have hc1 : ([Event.createApp (mkCreateAppInput org builderName region),
                Event.allocateIP app.name "shared_v4",
                Event.waitForApp app.name] : List Event).countP
                Event.isCreateVolume = 0 := by
              simp [Event.isCreateVolume]
            have hc2 : ([Event.deleteApp builderName] : List Event).countP
                Event.isCreateVolume = 0 := by
              simp [Event.isCreateVolume]
            omega
        | ok volume =>
          rcases h5 : callLaunch (mkLaunchInput org region app volume) s4
            with ⟨r5, s5⟩
          have ht5 : s5.trace =
              s4.trace ++ [Event.launch (mkLaunchInput org region app volume)] := by
            have h := callLaunch_trace (mkLaunchInput org region app volume) s4
            rw [h5] at h
            exact h
          cases r5 with
          | error e =>
            refine ⟨[Event.createApp (mkCreateAppInput org builderName region),
                     Event.allocateIP app.name "shared_v4",
                     Event.waitForApp app.name] ++ tL ++
                     [Event.launch (mkLaunchInput org region app volume),
                      Event.deleteVolume volume.id,
                      Event.deleteApp builderName], ?_, ?_, ?_⟩
            · have htrv := rollbackVolume_trace volume.id s5
              have htra := rollbackApp_trace builderName (rollbackVolume volume.id s5)
              simp only [createBuilder, h1, h2, h3, h4, h5]
              rw [htra, htrv, ht5, ht4, ht3, ht2, ht1]
              simp
            · intro x hx
              simp at hx
              rcases hx with hx | hx | hx | hx | hx | hx | hx
              · subst hx; exact Or.inl rfl
              · subst hx; exact Or.inr (Or.inl ⟨_, _, rfl⟩)
              · subst hx; exact Or.inr (Or.inr (Or.inl ⟨_, rfl⟩))
              · rcases hLe x hx with hx | hx
                · subst hx; exact Or.inr (Or.inr (Or.inr (Or.inl rfl)))
                · subst hx; exact Or.inr (Or.inr (Or.inr (Or.inr (Or.inr
                    (Or.inr (Or.inr rfl))))))
              · subst hx
                exact Or.inr (Or.inr (Or.inr (Or.inr (Or.inl ⟨_, rfl, rfl⟩))))
              · subst hx; exact Or.inr (Or.inr (Or.inr (Or.inr (Or.inr
                  (Or.inr (Or.inl ⟨_, rfl⟩))))))
              · subst hx; exact Or.inr (Or.inr (Or.inr (Or.inr (Or.inr
                  (Or.inl ⟨_, rfl⟩)))))
            · rw [List.countP_append, List.countP_append]
              have hc1 : ([Event.createApp (mkCreateAppInput org builderName region),
                  Event.allocateIP app.name "shared_v4",
                  Event.waitForApp app.name] : List Event).countP
                  Event.isCreateVolume = 0 := by
                simp [Event.isCreateVolume]
              have hc2 : ([Event.launch (mkLaunchInput org region app volume),
                  Event.deleteVolume volume.id,
                  Event.deleteApp builderName] : List Event).countP
                  Event.isCreateVolume = 0 := by
                simp [Event.isCreateVolume]
              omega
          | ok mach =>
            refine ⟨[Event.createApp (mkCreateAppInput org builderName region),
                     Event.allocateIP app.name "shared_v4",
                     Event.waitForApp app.name] ++ tL ++
                     [Event.launch (mkLaunchInput org region app volume)],
                     ?_, ?_, ?_⟩
            · simp only [createBuilder, h1, h2, h3, h4, h5]
              rw [ht5, ht4, ht3, ht2, ht1]
              simp
            · intro x hx
              simp at hx
              rcases hx with hx | hx | hx | hx | hx
              · subst hx; exact Or.inl rfl
              · subst hx; exact Or.inr (Or.inl ⟨_, _, rfl⟩)
              · subst hx; exact Or.inr (Or.inr (Or.inl ⟨_, rfl⟩))
              · rcases hLe x hx with hx | hx
                · subst hx; exact Or.inr (Or.inr (Or.inr (Or.inl rfl)))
                · subst hx; exact Or.inr (Or.inr (Or.inr (Or.inr (Or.inr
                    (Or.inr (Or.inr rfl))))))
              · subst hx
                exact Or.inr (Or.inr (Or.inr (Or.inr (Or.inl ⟨_, rfl, rfl⟩))))
            · rw [List.countP_append, List.countP_append]
              have hc1 : ([Event.createApp (mkCreateAppInput org builderName region),
                  Event.allocateIP app.name "shared_v4",
                  Event.waitForApp app.name] : List Event).countP
                  Event.isCreateVolume = 0 := by
                simp [Event.isCreateVolume]
              have hc2 : ([Event.launch (mkLaunchInput org region app volume)] :
                  List Event).countP Event.isCreateVolume = 0 := by
                simp [Event.isCreateVolume]
              omega

/-- Claim C7: validation checks volumes before machines — when the volume
list is empty the machine-listing call is never made (the whole trace is
the single `getVolumes` call) — and validation performs no remote
mutation: for every environment its trace is a block of `getVolumes`
reads (with retry sleeps) followed by a block of `listMachines` reads. -/
theorem C7_validation_reads_only
    (env : Env) (a : App) (rv : List (Except Err (List Volume)))
    (hv : env.getVolumesResps = Except.ok [] :: rv) :
    (runValidateBuilder (some a) env).2 = [Event.getVolumes]
    ∧ ∀ (app : Option App) (envA : Env),
        ∃ t1 t2 : List Event,
          (runValidateBuilder app envA).2 = t1 ++ t2
          ∧ (∀ e ∈ t1, e = Event.getVolumes ∨ e = Event.sleep1s)
          ∧ (∀ e ∈ t2, e = Event.listMachines ∨ e = Event.sleep1s) := by
  constructor
  · simp [runValidateBuilder, validateBuilder, validateBuilderVolumes,
          volumesLoop, callGetVolumes, hv]
  · intro app envA
    obtain ⟨t1, t2, h, h1, h2⟩ :=
      validateBuilder_events app { env := envA, trace := [] }
    exact ⟨t1, t2, by simpa using h, h1, h2⟩

/-- Witness for C7 at a concrete environment with an empty volume list:
the machine listing is never called. -/
theorem C7_validation_reads_only_witness :
    (runValidateBuilder (some { id := "app1", name := "fly-builder-x" })
        { env0 with getVolumesResps := [Except.ok []] }).2 =
      [Event.getVolumes]
    ∧ ∃ t1 t2 : List Event,
        (runValidateBuilder none env0).2 = t1 ++ t2
        ∧ (∀ e ∈ t1, e = Event.getVolumes ∨ e = Event.sleep1s)
        ∧ (∀ e ∈ t2, e = Event.listMachines ∨ e = Event.sleep1s) := by
  have h := C7_validation_reads_only
    { env0 with getVolumesResps := [Except.ok []] }
    { id := "app1", name := "fly-builder-x" } [] rfl
  exact ⟨h.1, h.2 none env0⟩

/-- Claim C4: retry budgets.  The retried reads make at most 3 attempts
total (`getVolumes` in `validateBuilderVolumes`, `listMachines` in
`validateBuilderMachines`), the volume-creation write makes at most 5
attempts total in any `createBuilder` run, consecutive attempts are
separated by exactly one 1-second sleep, and an exhausted budget
surfaces the last observed error unchanged — which is necessarily a
flaps 5xx error, distinguishing exhausted retries from a permanent
(non-5xx) failure. -/
theorem C4_retry_budgets :
    (∀ env : Env,
      ((runValidateBuilderVolumes env).2).count Event.getVolumes ≤ 3)
    ∧ (∀ env : Env,
      ((runValidateBuilderMachines env).2).count Event.listMachines ≤ 3)
    ∧ (∀ (org : Organization) (region builderName : String) (env : Env),
      ((runCreateBuilder org region builderName env).2).countP
        Event.isCreateVolume ≤ 5)
    ∧ (∀ (env : Env) (e1 e2 e3 : Err)
        (rv : List (Except Err (List Volume))),
      env.getVolumesResps =
        Except.error e1 :: Except.error e2 :: Except.error e3 :: rv →
      isServerError e1 = true → isServerError e2 = true →
      isServerError e3 = true →
      (runValidateBuilderVolumes env).1 = Except.error e3
      ∧ (runValidateBuilderVolumes env).2 =
          [Event.getVolumes, Event.sleep1s, Event.getVolumes,
           Event.sleep1s, Event.getVolumes])
    ∧ (∀ (org : Organization) (region builderName hk : String) (cc : Bool)
        (app : App) (e1 e2 e3 e4 e5 : Err) (da : Except Err Unit),
      isServerError e1 = true → isServerError e2 = true →
      isServerError e3 = true → isServerError e4 = true →
      isServerError e5 = true →
      (runCreateBuilder org region builderName
        { haikunatorName := hk, ctxCanceled := cc,
          getVolumesResps := [], listResps := [],
          createAppResps := [Except.ok app],
          deleteAppResps := [da],
          allocateIPResps := [Except.ok ()],
          waitForAppResps := [Except.ok ()],
          createVolumeResps := [Except.error e1, Except.error e2,
            Except.error e3, Except.error e4, Except.error e5],
          deleteVolumeResps := [], launchResps := [] }).1 =
        Except.error e5) := by
  refine ⟨?_, ?_, ?_, ?_, ?_⟩
  · intro env
    obtain ⟨t, h1, _, h3⟩ := volumesLoop_shape 2 { env := env, trace := [] }
    have h := validateBuilderVolumes_trace { env := env, trace := [] }
    simp only [runValidateBuilderVolumes]
    rw [h, h1]
    simpa using h3
  · intro env
    obtain ⟨t, h1, _, h3⟩ := machinesLoop_shape 2 { env := env, trace := [] }
    have h := validateBuilderMachines_trace { env := env, trace := [] }
    simp only [runValidateBuilderMachines]
    rw [h, h1]
    simpa using h3
  · intro org region builderName env
    obtain ⟨t, h1, _, h3⟩ :=
      createBuilder_trace org region builderName { env := env, trace := [] }
    simp only [runCreateBuilder]
    rw [h1]
    simpa using h3
  · intro env e1 e2 e3 rv hv hs1 hs2 hs3
    constructor <;>
      simp [runValidateBuilderVolumes, validateBuilderVolumes, volumesLoop,
            callGetVolumes, doSleep, hv, hs1, hs2, hs3]
  · intro org region builderName hk cc app e1 e2 e3 e4 e5 da
      hs1 hs2 hs3 hs4 hs5
    simp [runCreateBuilder, createBuilder, createVolumeLoop, callCreateApp,
          callAllocateIP, callWaitForApp, callCreateVolume, rollbackApp,
          callDeleteApp, doSleep, hs1, hs2, hs3, hs4, hs5]

/-- Witness for C4: with three consecutive 503s the volume read fails
with the third 503 after exactly three attempts and two sleeps; with
five consecutive 500s the volume creation in `createBuilder` fails with
the fifth 500. -/
theorem C4_retry_budgets_witness :
    ((runValidateBuilderVolumes
        { env0 with getVolumesResps :=
            [Except.error (Err.flaps 503), Except.error (Err.flaps 503),
             Except.error (Err.flaps 503)] }).1 =
      Except.error (Err.flaps 503)
    ∧ (runValidateBuilderVolumes
        { env0 with getVolumesResps :=
            [Except.error (Err.flaps 503), Except.error (Err.flaps 503),
             Except.error (Err.flaps 503)] }).2 =
        [Event.getVolumes, Event.sleep1s, Event.getVolumes,
         Event.sleep1s, Event.getVolumes])
    ∧ (runCreateBuilder
        { id := "org1", slug := "acme",
          remoteBuilderApp := none, remoteBuilderImage := "" }
        "iad" "fly-builder-w"
        { haikunatorName := "w", ctxCanceled := false,
          getVolumesResps := [], listResps := [],
          createAppResps := [Except.ok { id := "a1", name := "fly-builder-w" }],
          deleteAppResps := [Except.ok ()],
          allocateIPResps := [Except.ok ()],
          waitForAppResps := [Except.ok ()],
          createVolumeResps := [Except.error (Err.flaps 500),
            Except.error (Err.flaps 500), Except.error (Err.flaps 500),
            Except.error (Err.flaps 500), Except.error (Err.flaps 500)],
          deleteVolumeResps := [], launchResps := [] }).1 =
      Except.error (Err.flaps 500) := by
  refine ⟨?_, ?_⟩
  · exact C4_retry_budgets.2.2.2.1
      { env0 with getVolumesResps :=
          [Except.error (Err.flaps 503), Except.error (Err.flaps 503),
           Except.error (Err.flaps 503)] }
      (Err.flaps 503) (Err.flaps 503) (Err.flaps 503) [] rfl rfl rfl rfl
  · exact C4_retry_budgets.2.2.2.2
      { id := "org1", slug := "acme", remoteBuilderApp := none,
        remoteBuilderImage := "" }
      "iad" "fly-builder-w" "w" false
      { id := "a1", name := "fly-builder-w" }
      (Err.flaps 500) (Err.flaps 500) (Err.flaps 500) (Err.flaps 500)
      (Err.flaps 500) (Except.ok ()) rfl rfl rfl rfl rfl

/-- Claim C2: rollback discipline of `createBuilder`.  (a) If the machine
launch fails after app, address, and volume creation succeeded, the
volume is deleted and then the app is deleted, in that order, the
returned error is the original launch error, and the rollback responses
`dv`, `da` — even failures — do not affect it.  (b) On success no
rollback fires (no delete event, and the delete streams are empty so no
delete response is even consumed).  (c) If address allocation fails
before the volume exists, only the app rollback fires. -/
theorem C2_rollback_discipline :
    (∀ (org : Organization) (region builderName hk : String) (cc : Bool)
        (app : App) (volume : Volume) (e : Err) (da dv : Except Err Unit),
      runCreateBuilder org region builderName
        { haikunatorName := hk, ctxCanceled := cc,
          getVolumesResps := [], listResps := [],
          createAppResps := [Except.ok app],
          deleteAppResps := [da],
          allocateIPResps := [Except.ok ()],
          waitForAppResps := [Except.ok ()],
          createVolumeResps := [Except.ok volume],
          deleteVolumeResps := [dv],
          launchResps := [Except.error e] } =
      (Except.error e,
       [Event.createApp (mkCreateAppInput org builderName region),
        Event.allocateIP app.name "shared_v4",
        Event.waitForApp app.name,
        Event.createVolume (mkVolumeReq region),
        Event.launch (mkLaunchInput org region app volume),
        Event.deleteVolume volume.id,
        Event.deleteApp builderName]))
    ∧ (∀ (org : Organization) (region builderName hk : String) (cc : Bool)
        (app : App) (volume : Volume) (mach : Machine),
      runCreateBuilder org region builderName
        { haikunatorName := hk, ctxCanceled := cc,
          getVolumesResps := [], listResps := [],
          createAppResps := [Except.ok app],
          deleteAppResps := [],
          allocateIPResps := [Except.ok ()],
          waitForAppResps := [Except.ok ()],
          createVolumeResps := [Except.ok volume],
          deleteVolumeResps := [],
          launchResps := [Except.ok mach] } =
      (Except.ok (app, mach),
       [Event.createApp (mkCreateAppInput org builderName region),
        Event.allocateIP app.name "shared_v4",
        Event.waitForApp app.name,
        Event.createVolume (mkVolumeReq region),
        Event.launch (mkLaunchInput org region app volume)]))
    ∧ (∀ (org : Organization) (region builderName hk : String) (cc : Bool)
        (app : App) (e : Err) (da : Except Err Unit),
      runCreateBuilder org region builderName
        { haikunatorName := hk, ctxCanceled := cc,
          getVolumesResps := [], listResps := [],
          createAppResps := [Except.ok app],
          deleteAppResps := [da],
          allocateIPResps := [Except.error e],
          waitForAppResps := [],
          createVolumeResps := [],
          deleteVolumeResps := [],
          launchResps := [] } =
      (Except.error e,
       [Event.createApp (mkCreateAppInput org builderName region),
        Event.allocateIP app.name "shared_v4",
        Event.deleteApp builderName])) := by
  refine ⟨?_, ?_, ?_⟩ <;>
    intros <;>
    simp [runCreateBuilder, createBuilder, createVolumeLoop, callCreateApp,
          callAllocateIP, callWaitForApp, callCreateVolume, callLaunch,
          rollbackApp, rollbackVolume, callDeleteApp, callDeleteVolume]

/-- Claim C3: decommission before create.  (a) When validation reports
`NoBuilderVolume` for the recorded builder app `a`, `EnsureBuilder`
issues exactly one delete-app call (for `a.name`), before the (single)
create-app call, and the fresh registration name is
`"fly-builder-" ++ hk`; under the spec-modelled freshness of the
generated name, that name differs from the decommissioned app's name.
(b) If that deletion fails, its error is returned and no creation call
is made.  (c) When the reason is `NoBuilderApp`, no deletion is issued
and creation proceeds directly.  (d) Same as (a) for
`InvalidMachineCount`. -/
theorem C3_decommission_before_create
    (oid sl img region hk : String) (cc : Bool) (a app2 : App)
    (volume : Volume) (mach : Machine) (de : Err)
    (hfresh : "fly-builder-" ++ hk ≠ a.name) :
    (runEnsureBuilder
      { id := oid, slug := sl, remoteBuilderApp := some a,
        remoteBuilderImage := img } region
      { haikunatorName := hk, ctxCanceled := cc,
        getVolumesResps := [Except.ok []], listResps := [],
        createAppResps := [Except.ok app2],
        deleteAppResps := [Except.ok ()],
        allocateIPResps := [Except.ok ()],
        waitForAppResps := [Except.ok ()],
        createVolumeResps := [Except.ok volume],
        deleteVolumeResps := [],
        launchResps := [Except.ok mach] } =
    (Except.ok (mach, some app2),
     [Event.getVolumes,
      Event.deleteApp a.name,
      Event.createApp (mkCreateAppInput
        { id := oid, slug := sl, remoteBuilderApp := some a,
          remoteBuilderImage := img } ("fly-builder-" ++ hk) region),
      Event.allocateIP app2.name "shared_v4",
      Event.waitForApp app2.name,
      Event.createVolume (mkVolumeReq region),
      Event.launch (mkLaunchInput
        { id := oid, slug := sl, remoteBuilderApp := some a,
          remoteBuilderImage := img } region app2 volume)]))
    ∧ (mkCreateAppInput
        { id := oid, slug := sl, remoteBuilderApp := some a,
          remoteBuilderImage := img } ("fly-builder-" ++ hk) region).name
        ≠ a.name
    ∧ (runEnsureBuilder
        { id := oid, slug := sl, remoteBuilderApp := some a,
          remoteBuilderImage := img } region
        { haikunatorName := hk, ctxCanceled := cc,
          getVolumesResps := [Except.ok []], listResps := [],
          createAppResps := [Except.ok app2],
          deleteAppResps := [Except.error de],
          allocateIPResps := [], waitForAppResps := [],
          createVolumeResps := [], deleteVolumeResps := [],
          launchResps := [] } =
      (Except.error de, [Event.getVolumes, Event.deleteApp a.name]))
    ∧ (runEnsureBuilder
        { id := oid, slug := sl, remoteBuilderApp := none,
          remoteBuilderImage := img } region
        { haikunatorName := hk, ctxCanceled := cc,
          getVolumesResps := [], listResps := [],
          createAppResps := [Except.ok app2],
          deleteAppResps := [],
          allocateIPResps := [Except.ok ()],
          waitForAppResps := [Except.ok ()],
          createVolumeResps := [Except.ok volume],
          deleteVolumeResps := [],
          launchResps := [Except.ok mach] } =
      (Except.ok (mach, some app2),
       [Event.createApp (mkCreateAppInput
          { id := oid, slug := sl, remoteBuilderApp := none,
            remoteBuilderImage := img } ("fly-builder-" ++ hk) region),
        Event.allocateIP app2.name "shared_v4",
        Event.waitForApp app2.name,
        Event.createVolume (mkVolumeReq region),
        Event.launch (mkLaunchInput
          { id := oid, slug := sl, remoteBuilderApp := none,
            remoteBuilderImage := img } region app2 volume)]))
    ∧ (runEnsureBuilder
        { id := oid, slug := sl, remoteBuilderApp := some a,
          remoteBuilderImage := img } region
        { haikunatorName := hk, ctxCanceled := cc,
          getVolumesResps := [Except.ok [volume]],
          listResps := [Except.ok []],
          createAppResps := [Except.ok app2],
          deleteAppResps := [Except.ok ()],
          allocateIPResps := [Except.ok ()],
          waitForAppResps := [Except.ok ()],
          createVolumeResps := [Except.ok volume],
          deleteVolumeResps := [],
          launchResps := [Except.ok mach] } =
      (Except.ok (mach, some app2),
       [Event.getVolumes, Event.listMachines,
        Event.deleteApp a.name,
        Event.createApp (mkCreateAppInput
          { id := oid, slug := sl, remoteBuilderApp := some a,
            remoteBuilderImage := img } ("fly-builder-" ++ hk) region),
        Event.allocateIP app2.name "shared_v4",
        Event.waitForApp app2.name,
        Event.createVolume (mkVolumeReq region),
        Event.launch (mkLaunchInput
          { id := oid, slug := sl, remoteBuilderApp := some a,
            remoteBuilderImage := img } region app2 volume)])) := by
  refine ⟨?_, ?_, ?_, ?_, ?_⟩
  · simp [runEnsureBuilder, EnsureBuilder, validateBuilder,
          validateBuilderVolumes, volumesLoop, callGetVolumes,
          asValidateBuilderError, callDeleteApp, createAndReturn,
          createBuilder, createVolumeLoop, callCreateApp, callAllocateIP,
          callWaitForApp, callCreateVolume, callLaunch]
  · simpa [mkCreateAppInput] using hfresh
  · simp [runEnsureBuilder, EnsureBuilder, validateBuilder,
          validateBuilderVolumes, volumesLoop, callGetVolumes,
          asValidateBuilderError, callDeleteApp]
  · simp [runEnsureBuilder, EnsureBuilder, validateBuilder,
          asValidateBuilderError, createAndReturn,
          createBuilder, createVolumeLoop, callCreateApp, callAllocateIP,
          callWaitForApp, callCreateVolume, callLaunch]
  · simp [runEnsureBuilder, EnsureBuilder, validateBuilder,
          validateBuilderVolumes, volumesLoop, callGetVolumes,
          validateBuilderMachines, machinesLoop, callListMachines,
          asValidateBuilderError, callDeleteApp, createAndReturn,
          createBuilder, createVolumeLoop, callCreateApp, callAllocateIP,
          callWaitForApp, callCreateVolume, callLaunch]

/-- Witness for C3 at concrete inputs (fresh name `fly-builder-new`,
old app named `fly-builder-old`). -/
theorem C3_decommission_before_create_witness :
    ("fly-builder-" ++ "new" ≠ "fly-builder-old")
    ∧ (mkCreateAppInput
        { id := "o1", slug := "acme",
          remoteBuilderApp := some { id := "a0", name := "fly-builder-old" },
          remoteBuilderImage := "" } ("fly-builder-" ++ "new") "iad").name
        ≠ ({ id := "a0", name := "fly-builder-old" } : App).name
    ∧ runEnsureBuilder
        { id := "o1", slug := "acme",
          remoteBuilderApp := some { id := "a0", name := "fly-builder-old" },
          remoteBuilderImage := "" } "iad"
        { haikunatorName := "new", ctxCanceled := false,
          getVolumesResps := [Except.ok []], listResps := [],
          createAppResps := [Except.ok { id := "a1", name := "fly-builder-new" }],
          deleteAppResps := [Except.error (Err.flaps 404)],
          allocateIPResps := [], waitForAppResps := [],
          createVolumeResps := [], deleteVolumeResps := [],
          launchResps := [] } =
      (Except.error (Err.flaps 404),
       [Event.getVolumes, Event.deleteApp "fly-builder-old"]) := by
  have h := C3_decommission_before_create "o1" "acme" "" "iad" "new" false
    { id := "a0", name := "fly-builder-old" }
    { id := "a1", name := "fly-builder-new" }
    { id := "v1" } { id := "m1" } (Err.flaps 404) (by decide)
  exact ⟨by decide, h.2.1, h.2.2.1⟩

/-- Every run of the volumes loop starts with a `getVolumes` call. -/
theorem volumesLoop_first (fuel : Nat) (s : RunState) :
    ∃ t : List Event,
      (volumesLoop fuel s).2.trace = s.trace ++ Event.getVolumes :: t := by
  rcases hr : callGetVolumes s with ⟨r, s1⟩
  have ht : s1.trace = s.trace ++ [Event.getVolumes] := by
    have h := callGetVolumes_trace s
    rw [hr] at h
    exact h
  cases r with
  | ok vs => exact ⟨[], by simp [volumesLoop, hr, ht]⟩
  | error e =>
    cases hse : isServerError e with
    | false => exact ⟨[], by rw [volumesLoop, hr]; simp [hse, ht]⟩
    | true =>
      cases fuel with
      | zero => exact ⟨[], by rw [volumesLoop, hr]; simp [hse, ht]⟩
      | succ f =>
        obtain ⟨t', h1, _, _⟩ := volumesLoop_shape f (doSleep s1)
        refine ⟨Event.sleep1s :: t', ?_⟩
        rw [volumesLoop, hr]
        simp only [hse, if_true]
        rw [h1]
        simp [doSleep, ht]

/-- Every run of the machines loop starts with a `listMachines` call. -/
theorem machinesLoop_first (fuel : Nat) (s : RunState) :
    ∃ t : List Event,
      (machinesLoop fuel s).2.trace = s.trace ++ Event.listMachines :: t := by
  rcases hr : callListMachines s with ⟨r, s1⟩
  have ht : s1.trace = s.trace ++ [Event.listMachines] := by
    have h := callListMachines_trace s
    rw [hr] at h
    exact h
  cases r with
  | ok ms => exact ⟨[], by simp [machinesLoop, hr, ht]⟩
  | error e =>
    cases hse : isServerError e with
    | false => exact ⟨[], by rw [machinesLoop, hr]; simp [hse, ht]⟩
    | true =>
      cases fuel with
      | zero => exact ⟨[], by rw [machinesLoop, hr]; simp [hse, ht]⟩
      | succ f =>
        obtain ⟨t', h1, _, _⟩ := machinesLoop_shape f (doSleep s1)
        refine ⟨Event.sleep1s :: t', ?_⟩
        rw [machinesLoop, hr]
        simp only [hse, if_true]
        rw [h1]
        simp [doSleep, ht]

/-- Every run of the volume-creation loop starts with a `createVolume`
call. -/
theorem createVolumeLoop_first (req : CreateVolumeRequest) (fuel : Nat)
    (s : RunState) :
    ∃ t : List Event,
      (createVolumeLoop req fuel s).2.trace =
        s.trace ++ Event.createVolume req :: t := by
  rcases hr : callCreateVolume req s with ⟨r, s1⟩
  have ht : s1.trace = s.trace ++ [Event.createVolume req] := by
    have h := callCreateVolume_trace req s
    rw [hr] at h
    exact h
  cases r with
  | ok v => exact ⟨[], by simp [createVolumeLoop, hr, ht]⟩
  | error e =>
    cases hse : isServerError e with
    | false => exact ⟨[], by rw [createVolumeLoop, hr]; simp [hse, ht]⟩
    | true =>
      cases fuel with
      | zero => exact ⟨[], by rw [createVolumeLoop, hr]; simp [hse, ht]⟩
      | succ f =>
        obtain ⟨t', h1, _, _⟩ := createVolumeLoop_shape req f (doSleep s1)
        refine ⟨Event.sleep1s :: t', ?_⟩
        rw [createVolumeLoop, hr]
        simp only [hse, if_true]
        rw [h1]
        simp [doSleep, ht]

/-- Claim C5: a failed attempt is retried if and only if the error is a
flaps error with status in 500–599.  For each retried operation: a
non-5xx first failure is returned immediately after a single call (zero
additional attempts); a 5xx first failure is followed by a sleep and a
second call. -/
theorem C5_retry_iff_5xx :
    (∀ (env : Env) (e : Err) (rv : List (Except Err (List Volume))),
      env.getVolumesResps = Except.error e :: rv →
      (isServerError e = false →
        runValidateBuilderVolumes env = (Except.error e, [Event.getVolumes]))
      ∧ (isServerError e = true →
        (runValidateBuilderVolumes env).2.take 3 =
          [Event.getVolumes, Event.sleep1s, Event.getVolumes]))
    ∧ (∀ (env : Env) (e : Err) (rm : List (Except Err (List Machine))),
      env.listResps = Except.error e :: rm →
      (isServerError e = false →
        runValidateBuilderMachines env =
          (Except.error e, [Event.listMachines]))
      ∧ (isServerError e = true →
        (runValidateBuilderMachines env).2.take 3 =
          [Event.listMachines, Event.sleep1s, Event.listMachines]))
    ∧ (∀ (req : CreateVolumeRequest) (env : Env) (e : Err)
        (rc : List (Except Err Volume)),
      env.createVolumeResps = Except.error e :: rc →
      (isServerError e = false →
        (createVolumeLoop req 4 { env := env, trace := [] }).1 =
          Except.error e
        ∧ (createVolumeLoop req 4 { env := env, trace := [] }).2.trace =
          [Event.createVolume req])
      ∧ (isServerError e = true →
        ((createVolumeLoop req 4 { env := env, trace := [] }).2.trace).take 3 =
          [Event.createVolume req, Event.sleep1s, Event.createVolume req])) := by
  refine ⟨?_, ?_, ?_⟩
  · intro env e rv hv
    have hc : callGetVolumes { env := env, trace := [] } =
        (Except.error e,
         { env := { env with getVolumesResps := rv },
           trace := [Event.getVolumes] }) := by
      simp [callGetVolumes, hv]
    constructor
    · intro hse
      simp [runValidateBuilderVolumes, validateBuilderVolumes, volumesLoop,
            hc, hse]
    · intro hse
      have hstep : volumesLoop 2 { env := env, trace := [] } =
          volumesLoop 1 (doSleep
            { env := { env with getVolumesResps := rv },
              trace := [Event.getVolumes] }) := by
        rw [volumesLoop, hc]
        simp [hse]
      obtain ⟨t, h1⟩ := volumesLoop_first 1 (doSleep
        { env := { env with getVolumesResps := rv },
          trace := [Event.getVolumes] })
      have h := validateBuilderVolumes_trace { env := env, trace := [] }
      simp only [runValidateBuilderVolumes]
      rw [h, hstep, h1]
      simp [doSleep]
  · intro env e rm hm
    have hc : callListMachines { env := env, trace := [] } =
        (Except.error e,
         { env := { env with listResps := rm },
           trace := [Event.listMachines] }) := by
      simp [callListMachines, hm]
    constructor
    · intro hse
      simp [runValidateBuilderMachines, validateBuilderMachines,
            machinesLoop, hc, hse]
    · intro hse
      have hstep : machinesLoop 2 { env := env, trace := [] } =
          machinesLoop 1 (doSleep
            { env := { env with listResps := rm },
              trace := [Event.listMachines] }) := by
        rw [machinesLoop, hc]
        simp [hse]
      obtain ⟨t, h1⟩ := machinesLoop_first 1 (doSleep
        { env := { env with listResps := rm },
          trace := [Event.listMachines] })
      have h := validateBuilderMachines_trace { env := env, trace := [] }
      simp only [runValidateBuilderMachines]
      rw [h, hstep, h1]
      simp [doSleep]
  · intro req env e rc hcv
    have hc : callCreateVolume req { env := env, trace := [] } =
        (Except.error e,
         { env := { env with createVolumeResps := rc },
           trace := [Event.createVolume req] }) := by
      simp [callCreateVolume, hcv]
    constructor
    · intro hse
      constructor <;> simp [createVolumeLoop, hc, hse]
    · intro hse
      have hstep : createVolumeLoop req 4 { env := env, trace := [] } =
          createVolumeLoop req 3 (doSleep
            { env := { env with createVolumeResps := rc },
              trace := [Event.createVolume req] }) := by
        rw [createVolumeLoop, hc]
        simp [hse]
      obtain ⟨t, h1⟩ := createVolumeLoop_first req 3 (doSleep
        { env := { env with createVolumeResps := rc },
          trace := [Event.createVolume req] })
      rw [hstep, h1]
      simp [doSleep]

/-- Witness for C5: a single 404 fails immediately with one call; a 503
is followed by a sleep and a second call. -/
theorem C5_retry_iff_5xx_witness :
    (runValidateBuilderVolumes
        { env0 with getVolumesResps := [Except.error (Err.flaps 404)] } =
      (Except.error (Err.flaps 404), [Event.getVolumes]))
    ∧ ((runValidateBuilderVolumes
        { env0 with getVolumesResps :=
            [Except.error (Err.flaps 503), Except.ok []] }).2.take 3 =
      [Event.getVolumes, Event.sleep1s, Event.getVolumes]) := by
  constructor
  · exact (C5_retry_iff_5xx.1
      { env0 with getVolumesResps := [Except.error (Err.flaps 404)] }
      (Err.flaps 404) [] rfl).1 rfl
  · exact (C5_retry_iff_5xx.1
      { env0 with getVolumesResps :=
          [Except.error (Err.flaps 503), Except.ok []] }
      (Err.flaps 503) [Except.ok []] rfl).2 rfl

/-- Claim C6: idempotence of the fast path.  With a recorded builder app
`a` and an unmutated remote state (the reads serve the same non-empty
volume list and the same single machine `m` on both invocations),
running `EnsureBuilder` twice in sequence returns the identical pair
`(m, a)` both times, and the combined trace is four reads — the second
invocation performs zero creation calls. -/
theorem C6_fast_path_idempotent
    (oid sl img region : String) (a : App) (m : Machine) (v : Volume)
    (vs : List Volume) (env : Env)
    (rv : List (Except Err (List Volume)))
    (rm : List (Except Err (List Machine)))
    (hv : env.getVolumesResps =
      Except.ok (v :: vs) :: Except.ok (v :: vs) :: rv)
    (hm : env.listResps = Except.ok [m] :: Except.ok [m] :: rm) :
    (EnsureBuilder
      { id := oid, slug := sl, remoteBuilderApp := some a,
        remoteBuilderImage := img } region
      { env := env, trace := [] }).1 = Except.ok (m, some a)
    ∧ (EnsureBuilder
        { id := oid, slug := sl, remoteBuilderApp := some a,
          remoteBuilderImage := img } region
        (EnsureBuilder
          { id := oid, slug := sl, remoteBuilderApp := some a,
            remoteBuilderImage := img } region
          { env := env, trace := [] }).2).1 = Except.ok (m, some a)
    ∧ (EnsureBuilder
        { id := oid, slug := sl, remoteBuilderApp := some a,
          remoteBuilderImage := img } region
        (EnsureBuilder
          { id := oid, slug := sl, remoteBuilderApp := some a,
            remoteBuilderImage := img } region
          { env := env, trace := [] }).2).2.trace =
      [Event.getVolumes, Event.listMachines,
       Event.getVolumes, Event.listMachines] := by
  refine ⟨?_, ?_, ?_⟩ <;>
    simp [EnsureBuilder, validateBuilder, validateBuilderVolumes,
          validateBuilderMachines, volumesLoop, machinesLoop,
          callGetVolumes, callListMachines, hv, hm]

/-- Witness for C6 at concrete inputs. -/
theorem C6_fast_path_idempotent_witness :
    (EnsureBuilder
      { id := "o1", slug := "acme",
        remoteBuilderApp := some { id := "a0", name := "fly-builder-old" },
        remoteBuilderImage := "" } "iad"
      { env := { env0 with
          getVolumesResps := [Except.ok [{ id := "v1" }],
            Except.ok [{ id := "v1" }]],
          listResps := [Except.ok [{ id := "m1" }],
            Except.ok [{ id := "m1" }]] }, trace := [] }).1 =
      Except.ok ({ id := "m1" },
        some { id := "a0", name := "fly-builder-old" })
    ∧ (EnsureBuilder
        { id := "o1", slug := "acme",
          remoteBuilderApp := some { id := "a0", name := "fly-builder-old" },
          remoteBuilderImage := "" } "iad"
        (EnsureBuilder
          { id := "o1", slug := "acme",
            remoteBuilderApp := some { id := "a0", name := "fly-builder-old" },
            remoteBuilderImage := "" } "iad"
          { env := { env0 with
              getVolumesResps := [Except.ok [{ id := "v1" }],
                Except.ok [{ id := "v1" }]],
              listResps := [Except.ok [{ id := "m1" }],
                Except.ok [{ id := "m1" }]] }, trace := [] }).2).1 =
      Except.ok ({ id := "m1" },
        some { id := "a0", name := "fly-builder-old" }) := by
  have h := C6_fast_path_idempotent "o1" "acme" "" "iad"
    { id := "a0", name := "fly-builder-old" } { id := "m1" } { id := "v1" }
    []
    { env0 with
        getVolumesResps := [Except.ok [{ id := "v1" }],
          Except.ok [{ id := "v1" }]],
        listResps := [Except.ok [{ id := "m1" }],
          Except.ok [{ id := "m1" }]] }
    [] [] rfl rfl
  exact ⟨h.1, h.2.1⟩

/-! ## The generated name is constant through a run -/

theorem callGetVolumes_hk (s : RunState) :
    (callGetVolumes s).2.env.haikunatorName = s.env.haikunatorName := by
  rcases h : s.env.getVolumesResps with _ | ⟨r, rest⟩ <;>
    simp [callGetVolumes, h]

theorem callListMachines_hk (s : RunState) :
    (callListMachines s).2.env.haikunatorName = s.env.haikunatorName := by
  rcases h : s.env.listResps with _ | ⟨r, rest⟩ <;>
    simp [callListMachines, h]

theorem callDeleteApp_hk (n : String) (s : RunState) :
    (callDeleteApp n s).2.env.haikunatorName = s.env.haikunatorName := by
  rcases h : s.env.deleteAppResps with _ | ⟨r, rest⟩ <;>
    simp [callDeleteApp, h]

theorem volumesLoop_hk (fuel : Nat) :
    ∀ s : RunState,
      (volumesLoop fuel s).2.env.haikunatorName = s.env.haikunatorName := by
  induction fuel with
  | zero =>
    intro s
    rcases hr : callGetVolumes s with ⟨r, s1⟩
    have hk := callGetVolumes_hk s
    rw [hr] at hk
    replace hk : s1.env.haikunatorName = s.env.haikunatorName := hk
    cases r with
    | ok vs => simp [volumesLoop, hr, hk]
    | error e =>
      cases hse : isServerError e <;> (rw [volumesLoop, hr]; simp [hse, hk])
  | succ f ih =>
    intro s
    rcases hr : callGetVolumes s with ⟨r, s1⟩
    have hk := callGetVolumes_hk s
    rw [hr] at hk
    replace hk : s1.env.haikunatorName = s.env.haikunatorName := hk
    cases r with
    | ok vs => simp [volumesLoop, hr, hk]
    | error e =>
      cases hse : isServerError e with
      | false => rw [volumesLoop, hr]; simp [hse, hk]
      | true =>
        rw [volumesLoop, hr]
        simp only [hse, if_true]
        rw [ih (doSleep s1)]
        simp [doSleep, hk]

theorem machinesLoop_hk (fuel : Nat) :
    ∀ s : RunState,
      (machinesLoop fuel s).2.env.haikunatorName = s.env.haikunatorName := by
  induction fuel with
  | zero =>
    intro s
    rcases hr : callListMachines s with ⟨r, s1⟩
    have hk := callListMachines_hk s
    rw [hr] at hk
    replace hk : s1.env.haikunatorName = s.env.haikunatorName := hk
    cases r with
    | ok ms => simp [machinesLoop, hr, hk]
    | error e =>
      cases hse : isServerError e <;> (rw [machinesLoop, hr]; simp [hse, hk])
  | succ f ih =>
    intro s
    rcases hr : callListMachines s with ⟨r, s1⟩
    have hk := callListMachines_hk s
    rw [hr] at hk
    replace hk : s1.env.haikunatorName = s.env.haikunatorName := hk
    cases r with
    | ok ms => simp [machinesLoop, hr, hk]
    | error e =>
      cases hse : isServerError e with
      | false => rw [machinesLoop, hr]; simp [hse, hk]
      | true =>
        rw [machinesLoop, hr]
        simp only [hse, if_true]
        rw [ih (doSleep s1)]
        simp [doSleep, hk]

theorem validateBuilderVolumes_hk (s : RunState) :
    (validateBuilderVolumes s).2.env.haikunatorName = s.env.haikunatorName := by
  rcases h : volumesLoop 2 s with ⟨r, s1⟩
  have hk := volumesLoop_hk 2 s
  rw [h] at hk
  replace hk : s1.env.haikunatorName = s.env.haikunatorName := hk
  cases r with
  | error e => simp [validateBuilderVolumes, h, hk]
  | ok vs => cases vs <;> simp [validateBuilderVolumes, h, hk]

theorem validateBuilderMachines_hk (s : RunState) :
    (validateBuilderMachines s).2.env.haikunatorName = s.env.haikunatorName := by
  rcases h : machinesLoop 2 s with ⟨r, s1⟩
  have hk := machinesLoop_hk 2 s
  rw [h] at hk
  replace hk : s1.env.haikunatorName = s.env.haikunatorName := hk
  cases r with
  | error e => simp [validateBuilderMachines, h, hk]
  | ok ms =>
    rcases ms with _ | ⟨m, _ | ⟨m2, ms'⟩⟩ <;>
      simp [validateBuilderMachines, h, hk]

theorem validateBuilder_hk (app : Option App) (s : RunState) :
    (validateBuilder app s).2.env.haikunatorName = s.env.haikunatorName := by
  cases app with
  | none => simp [validateBuilder]
  | some a =>
    rcases hv : validateBuilderVolumes s with ⟨r, s1⟩
    have hk1 := validateBuilderVolumes_hk s
    rw [hv] at hk1
    replace hk1 : s1.env.haikunatorName = s.env.haikunatorName := hk1
    cases r with
    | error e => simp [validateBuilder, hv, hk1]
    | ok v =>
      have hk2 := validateBuilderMachines_hk s1
      simp only [validateBuilder, hv]
      rw [hk2, hk1]

/-- The function `createAndReturn` adds no events beyond its `createBuilder` call. -/
theorem createAndReturn_trace (org : Organization) (region : String)
    (s : RunState) :
    (createAndReturn org region s).2.trace =
      (createBuilder org region
        ("fly-builder-" ++ s.env.haikunatorName) s).2.trace := by
  rcases h : createBuilder org region
      ("fly-builder-" ++ s.env.haikunatorName) s with ⟨r, s1⟩
  cases r with
  | error e => simp [createAndReturn, h]
  | ok p =>
    rcases p with ⟨app, mach⟩
    simp [createAndReturn, h]

/-- Any `createApp` event appended by `createAndReturn` carries the
input built from the freshly generated `"fly-builder-"` name. -/
theorem createAndReturn_createApp (org : Organization) (region : String)
    (s : RunState) (inp : CreateAppInput)
    (hmem : Event.createApp inp ∈ (createAndReturn org region s).2.trace) :
    Event.createApp inp ∈ s.trace
    ∨ inp = mkCreateAppInput org
        ("fly-builder-" ++ s.env.haikunatorName) region := by
  obtain ⟨t, h1, h2, _⟩ := createBuilder_trace org region
    ("fly-builder-" ++ s.env.haikunatorName) s
  rw [createAndReturn_trace, h1] at hmem
  rcases List.mem_append.1 hmem with h | h
  · exact Or.inl h
  · have hseg := h2 _ h
    unfold createSegEvent at hseg
    rcases hseg with hc | ⟨n, t', hc⟩ | ⟨n, hc⟩ | hc | ⟨li, hc, _⟩ |
      ⟨n, hc⟩ | ⟨v, hc⟩ | hc
    · simp at hc
      exact Or.inr hc
    · simp at hc
    · simp at hc
    · simp at hc
    · simp at hc
    · simp at hc
    · simp at hc
    · simp at hc

/-- Claim C9: every `createApp` call any `EnsureBuilder` run ever issues
carries the name `"fly-builder-"` followed by the generated word pair
(spec-modelled `haikunator` output), for every organization, region and
environment — in particular the name is computed independently of
`org.remoteBuilderApp` and of any caller-supplied name, since the same
formula holds for all values of `org`. -/
theorem C9_fresh_name (org : Organization) (region : String) (env : Env)
    (inp : CreateAppInput)
    (hmem : Event.createApp inp ∈ (runEnsureBuilder org region env).2) :
    inp = mkCreateAppInput org ("fly-builder-" ++ env.haikunatorName) region
    ∧ inp.name = "fly-builder-" ++ env.haikunatorName := by
  have key : inp =
      mkCreateAppInput org ("fly-builder-" ++ env.haikunatorName) region := by
    simp only [runEnsureBuilder] at hmem
    rcases hval : validateBuilder org.remoteBuilderApp
      { env := env, trace := [] } with ⟨rV, s1⟩
    obtain ⟨t1, t2, hvt, hv1, hv2⟩ := validateBuilder_events
      org.remoteBuilderApp { env := env, trace := [] }
    rw [hval] at hvt
    replace hvt : s1.trace = [] ++ t1 ++ t2 := hvt
    have hk1 : s1.env.haikunatorName = env.haikunatorName := by
      have h := validateBuilder_hk org.remoteBuilderApp
        { env := env, trace := [] }
      rw [hval] at h
      exact h
    have hnoca : Event.createApp inp ∉ s1.trace := by
      rw [hvt]
      intro hmem'
      simp only [List.nil_append] at hmem'
      rcases List.mem_append.1 hmem' with h | h
      · rcases hv1 _ h with h' | h' <;> simp at h'
      · rcases hv2 _ h with h' | h' <;> simp at h'
    cases rV with
    | ok machine =>
      simp only [EnsureBuilder, hval] at hmem
      exact absurd hmem hnoca
    | error e =>
      rcases hA : asValidateBuilderError e with _ | vErr
      · simp only [EnsureBuilder, hval, hA] at hmem
        exact absurd hmem hnoca
      · by_cases hVB : vErr = ValidateBuilderError.NoBuilderApp
        · subst hVB
          rcases hca : createAndReturn org region s1 with ⟨rC, s2⟩
          have hmem2 : Event.createApp inp ∈ s2.trace := by
            cases rC with
            | error e2 =>
              simp [EnsureBuilder, hval, hA, hca] at hmem
              exact hmem
            | ok p =>
              rcases p with ⟨mach, app2⟩
              simp [EnsureBuilder, hval, hA, hca] at hmem
              exact hmem
          have hd := createAndReturn_createApp org region s1 inp
            (by rw [hca]; exact hmem2)
          rcases hd with h | h
          · exact absurd h hnoca
          · rw [hk1] at h
            exact h
        · rcases hOrg : org.remoteBuilderApp with _ | a
          · rw [hOrg] at hval
            simp [EnsureBuilder, hval, hA, hVB, hOrg] at hmem
            exact absurd hmem hnoca
          · rw [hOrg] at hval
            rcases hdel : callDeleteApp a.name s1 with ⟨rD, s2⟩
            have hk2 : s2.env.haikunatorName = s1.env.haikunatorName := by
              have h := callDeleteApp_hk a.name s1
              rw [hdel] at h
              exact h
            have ht2 : s2.trace = s1.trace ++ [Event.deleteApp a.name] := by
              have h := callDeleteApp_trace a.name s1
              rw [hdel] at h
              exact h
            have hnoca2 : Event.createApp inp ∉ s2.trace := by
              rw [ht2]
              intro hmem'
              rcases List.mem_append.1 hmem' with h | h
              · exact hnoca h
              · simp at h
            cases rD with
            | error de =>
              simp [EnsureBuilder, hval, hA, hVB, hOrg, hdel] at hmem
              exact absurd hmem hnoca2
            | ok u =>
              rcases hca : createAndReturn org region s2 with ⟨rC, s3⟩
              have hmem3 : Event.createApp inp ∈ s3.trace := by
                cases rC with
                | error e2 =>
                  simp [EnsureBuilder, hval, hA, hVB, hOrg, hdel, hca] at hmem
                  exact hmem
                | ok p =>
                  rcases p with ⟨mach, app2⟩
                  simp [EnsureBuilder, hval, hA, hVB, hOrg, hdel, hca] at hmem
                  exact hmem
              have hd := createAndReturn_createApp org region s2 inp
                (by rw [hca]; exact hmem3)
              rcases hd with h | h
              · exact absurd h hnoca2
              · rw [hk2, hk1] at h
                exact h
  exact ⟨key, by rw [key]; rfl⟩

/-- Witness for C9: in a concrete first-run provisioning the single
`createApp` call carries exactly the generated `fly-builder-` name. -/
theorem C9_fresh_name_witness :
    mkCreateAppInput
      { id := "o1", slug := "acme", remoteBuilderApp := none,
        remoteBuilderImage := "" } "fly-builder-w" "iad" =
    mkCreateAppInput
      { id := "o1", slug := "acme", remoteBuilderApp := none,
        remoteBuilderImage := "" } ("fly-builder-" ++ "w") "iad"
    ∧ (mkCreateAppInput
        { id := "o1", slug := "acme", remoteBuilderApp := none,
          remoteBuilderImage := "" } "fly-builder-w" "iad").name =
      "fly-builder-" ++ "w" := by
  exact C9_fresh_name
    { id := "o1", slug := "acme", remoteBuilderApp := none,
      remoteBuilderImage := "" } "iad"
    { env0 with
        haikunatorName := "w",
        createAppResps := [Except.ok { id := "a1", name := "fly-builder-w" }],
        allocateIPResps := [Except.ok ()],
        waitForAppResps := [Except.ok ()],
        createVolumeResps := [Except.ok { id := "v1" }],
        launchResps := [Except.ok { id := "m1" }] }
    (mkCreateAppInput
      { id := "o1", slug := "acme", remoteBuilderApp := none,
        remoteBuilderImage := "" } "fly-builder-w" "iad")
    (by decide)

/-- Claim C10: in every `createBuilder` run, every volume-creation request
carries `builderGuest` as its compute requirements and every launched
machine's config carries `builderGuest` as its guest, where
`builderGuest` is the fixed shared-CPU, 4-CPU, 4096 MB spec. -/
theorem C10_fixed_guest (org : Organization) (region builderName : String)
    (env : Env) :
    (∀ req : CreateVolumeRequest,
      Event.createVolume req ∈ (runCreateBuilder org region builderName env).2 →
      req.computeRequirements = builderGuest)
    ∧ (∀ li : LaunchMachineInput,
      Event.launch li ∈ (runCreateBuilder org region builderName env).2 →
      li.config.guest = builderGuest)
    ∧ builderGuest = { cpuKind := "shared", cpus := 4, memoryMB := 4096 } := by
  obtain ⟨t, h1, h2, _⟩ := createBuilder_trace org region builderName
    { env := env, trace := [] }
  refine ⟨?_, ?_, rfl⟩
  · intro req hmem
    simp only [runCreateBuilder] at hmem
    rw [h1] at hmem
    simp only [List.nil_append] at hmem
    have hseg := h2 _ hmem
    unfold createSegEvent at hseg
    rcases hseg with hc | ⟨n, t', hc⟩ | ⟨n, hc⟩ | hc | ⟨li, hc, _⟩ |
      ⟨n, hc⟩ | ⟨v, hc⟩ | hc
    · simp at hc
    · simp at hc
    · simp at hc
    · simp at hc
      rw [hc]
      rfl
    · simp at hc
    · simp at hc
    · simp at hc
    · simp at hc
  · intro li hmem
    simp only [runCreateBuilder] at hmem
    rw [h1] at hmem
    simp only [List.nil_append] at hmem
    have hseg := h2 _ hmem
    unfold createSegEvent at hseg
    rcases hseg with hc | ⟨n, t', hc⟩ | ⟨n, hc⟩ | hc | ⟨li', hc, hg⟩ |
      ⟨n, hc⟩ | ⟨v, hc⟩ | hc
    · simp at hc
    · simp at hc
    · simp at hc
    · simp at hc
    · simp at hc
      rw [hc]
      exact hg
    · simp at hc
    · simp at hc
    · simp at hc

/-- Witness for C10: in a concrete successful provisioning both the
volume request and the launch config carry the fixed guest. -/
theorem C10_fixed_guest_witness :
    (mkVolumeReq "iad").computeRequirements = builderGuest
    ∧ builderGuest =
        { cpuKind := "shared", cpus := 4, memoryMB := 4096 } := by
  have h := C10_fixed_guest
    { id := "o1", slug := "acme", remoteBuilderApp := none,
      remoteBuilderImage := "" } "iad" "fly-builder-w"
    { env0 with
        createAppResps := [Except.ok { id := "a1", name := "fly-builder-w" }],
        allocateIPResps := [Except.ok ()],
        waitForAppResps := [Except.ok ()],
        createVolumeResps := [Except.ok { id := "v1" }],
        launchResps := [Except.ok { id := "m1" }] }
  exact ⟨h.1 (mkVolumeReq "iad") (by decide), h.2.2⟩

/-- Claim C8, counterexample to the claim as stated: the retry loops do
not check the caller's cancellation signal between attempts.  With the
signal set (`ctxCanceled = true`) before the run and a transient 503 on
the first attempt, the volumes loop sleeps, issues a second remote call
and returns its (successful) result — it neither aborts early nor
produces a distinct cancellation outcome. -/
theorem C8_no_cancellation_check_counterexample :
    runValidateBuilderVolumes
      { env0 with
          ctxCanceled := true,
          getVolumesResps := [Except.error (Err.flaps 503),
            Except.ok [{ id := "v1" }]] } =
    (Except.ok { id := "v1" },
     [Event.getVolumes, Event.sleep1s, Event.getVolumes]) := by
  rfl

/-- Claim C8 as amended: the retry loops never consult the cancellation
signal between attempts; a canceled context surfaces only when the
remote call itself returns a cancellation error, which — being a
non-flaps error — is returned immediately with zero additional
attempts, for both read loops. -/
theorem C8_cancellation_amended :
    (∀ (env : Env) (e : Err) (rv : List (Except Err (List Volume))),
      env.getVolumesResps = Except.error e :: rv →
      asFlapsStatus e = none →
      runValidateBuilderVolumes env = (Except.error e, [Event.getVolumes]))
    ∧ (∀ (env : Env) (e : Err) (rm : List (Except Err (List Machine))),
      env.listResps = Except.error e :: rm →
      asFlapsStatus e = none →
      runValidateBuilderMachines env =
        (Except.error e, [Event.listMachines])) := by
  constructor
  · intro env e rv hv hf
    have hse : isServerError e = false := by
      simp [isServerError, hf]
    simp [runValidateBuilderVolumes, validateBuilderVolumes, volumesLoop,
          callGetVolumes, hv, hse]
  · intro env e rm hm hf
    have hse : isServerError e = false := by
      simp [isServerError, hf]
    simp [runValidateBuilderMachines, validateBuilderMachines, machinesLoop,
          callListMachines, hm, hse]

/-- Witness for the amended C8: a context-cancellation error is
returned immediately after one call. -/
theorem C8_cancellation_amended_witness :
    runValidateBuilderVolumes
      { env0 with
          ctxCanceled := true,
          getVolumesResps :=
            [Except.error (Err.other "context canceled")] } =
    (Except.error (Err.other "context canceled"), [Event.getVolumes]) := by
  exact C8_cancellation_amended.1
    { env0 with
        ctxCanceled := true,
        getVolumesResps :=
          [Except.error (Err.other "context canceled")] }
    (Err.other "context canceled") [] rfl rfl

end EnsureBuilderSpec
